import Mathlib

/-!
Shallow embedding of the FlavorCoach backend's Stripe-webhook → GoHighLevel
(GHL) CRM synchronization pipeline, together with the in-memory pipeline
stage-id resolver.

The definitions below are translated from the repository's JavaScript source:
* the merge-capable `ghlV1UpsertContact` / `ghlV1GetContactByEmail` helpers,
  the `TAGS` table, `splitName`, `convertKitSubscribe`, and the
  `registerStripeWebhooks` route handler (webhooks.js, final revision);
* `resolveV1StageIdByName` with its module-level `_stageIdCache` (server.js).

JavaScript strings are modelled as Lean `String`s, with the empty string
standing for an absent/undefined field wherever the source only ever reads
the value through a `|| ""` (falsy) chain.  External HTTP calls are modelled
by an explicit `World` of deterministic responses, and every function that
performs calls also returns the ordered trace of the calls it attempted.
-/

namespace FlavorCoach

/-! ## JavaScript string primitives -/

/-- `String.prototype.trim()` on the underlying character list:
drop leading whitespace, then drop trailing whitespace. -/
def trimChars (l : List Char) : List Char :=
  ((l.dropWhile Char.isWhitespace).reverse.dropWhile Char.isWhitespace).reverse

/-- JavaScript `s.trim()`. -/
def jsTrim (s : String) : String :=
  String.mk (trimChars s.data)

/-- JavaScript `a || b` for strings, where `""` (and absent) is falsy. -/
def jsOr (a b : String) : String :=
  if a = "" then b else a

/-- Insertion pass of `new Set(l)`: `seen` holds the elements already
emitted. -/
def jsDedupAux (seen : List String) : List String → List String
  | [] => []
  | t :: ts => if t ∈ seen then jsDedupAux seen ts else t :: jsDedupAux (t :: seen) ts

/-- JavaScript `Array.from(new Set(l))`: keep the first occurrence of each
element, in order. -/
def jsDedup (l : List String) : List String :=
  jsDedupAux [] l

/-- `list.map(t => String(t).trim()).filter(Boolean)` — the tag
normalization applied to both the incoming and the existing tag lists in
`ghlV1UpsertContact`. -/
def normTags (l : List String) : List String :=
  (l.map jsTrim).filter (· ≠ "")

/-- The tag list sent by `ghlV1UpsertContact`:
`mergedTags = Array.from(new Set(tags.map(trim).filter(Boolean)))` followed by
`mergedTags = Array.from(new Set([...existingTags, ...mergedTags]))` where
`existingTags = (existing?.tags || []).map(trim).filter(Boolean)`. -/
def mergedTagsFor (existingTags newTags : List String) : List String :=
  jsDedup (normTags existingTags ++ jsDedup (normTags newTags))

/-! ## Tag table and name splitting (webhooks.js) -/

/-- `TAGS.STABLE.TRIAL` -/
def TAGS.STABLE.TRIAL : String := "fc:trial_checkout"

/-- `TAGS.STABLE.ACTIVE` -/
def TAGS.STABLE.ACTIVE : String := "fc:payment_succeeded"

/-- `TAGS.STABLE.SUB_ACTIVE` -/
def TAGS.STABLE.SUB_ACTIVE : String := "fc:sub_active"

/-- `TAGS.STABLE.DUNNING` -/
def TAGS.STABLE.DUNNING : String := "fc:payment_failed"

/-- `TAGS.STABLE.CANCELED` -/
def TAGS.STABLE.CANCELED : String := "fc:sub_canceled"

/-- `TAGS.evt.cs(id)` = `` `evt:cs_${id}` `` -/
def TAGS.evt.cs (id : String) : String := "evt:cs_" ++ id

/-- `TAGS.evt.in(id)` = `` `evt:in_${id}` `` (`in` is a Lean keyword, hence `inv`). -/
def TAGS.evt.inv (id : String) : String := "evt:in_" ++ id

/-- `TAGS.evt.sub(id)` = `` `evt:sub_${id}` `` -/
def TAGS.evt.sub (id : String) : String := "evt:sub_" ++ id

/-- Maximal runs of non-whitespace characters, in order: the combined
effect of `split(/\s+/)` followed by `filter(Boolean)`.  `cur` accumulates
the current word in reverse. -/
def wordsAux (cur : List Char) : List Char → List String
  | [] => if cur = [] then [] else [String.mk cur.reverse]
  | c :: cs =>
    if c.isWhitespace then
      if cur = [] then wordsAux [] cs
      else String.mk cur.reverse :: wordsAux [] cs
    else wordsAux (c :: cur) cs

/-- `splitName(full)`: trim, split on whitespace runs, drop empty pieces. -/
def splitNameParts (full : String) : List String :=
  wordsAux [] (jsTrim full).data

/-- `splitName` returns `{ first, last }`. -/
def splitName (full : String) : String × String :=
  let parts := splitNameParts full
  (parts.headD "", String.intercalate " " parts.tail)

/-! ## Environment and external-call model

The relevant `process.env` values; `""` stands for an unset variable, which
is exactly how the source reads them (always through `|| ""` / falsiness). -/

structure Env where
  GHL_V1_API_KEY : String
  GHL_LOCATION_ID : String
  CONVERTKIT_API_KEY : String
  CONVERTKIT_FORM_ID : String
  CONVERTKIT_TAG_IDS : String

/-- A custom-field value as stamped by the handler.  `time created` stands
for `new Date(event.created * 1000).toISOString()` — the rendering is
injective in `created`, so the timestamp is kept symbolically. -/
inductive CFVal
  | str (s : String)
  | time (created : Nat)
deriving DecidableEq, Repr

/-- The CRM-side contact record as seen by the lookup (only the fields the
code reads / writes: its tag list and custom fields). -/
structure Contact where
  tags : List String
  customFields : List (String × CFVal)
deriving DecidableEq, Repr

/-- The JSON payload of a v1 contact upsert (`{email, firstName, lastName,
phone, tags, customFields}`), also used for the arguments of
`ghlV1UpsertContact` (absent argument fields are `""` / `[]`). -/
structure ContactPayload where
  email : String
  firstName : String := ""
  lastName : String := ""
  phone : String := ""
  tags : List String := []
  customFields : List (String × CFVal) := []
deriving DecidableEq, Repr

/-- Outcome of the lookup `fetch` in `ghlV1GetContactByEmail`:
the request may throw (network error or a `res.json()` failure), return a
non-ok HTTP status, or succeed with a (possibly absent) normalized contact. -/
inductive LookupOutcome
  | throws
  | httpErr
  | ok (c : Option Contact)

/-- Outcome of the upsert `fetch` in `ghlV1UpsertContact`. -/
inductive UpsertOutcome
  | throws
  | httpErr (status : Nat) (body : String)
  | ok (body : String)

/-- Deterministic model of the external systems' behaviour.
`retrieveCustomer` models `stripe.customers.retrieve`: `none` when the call
throws, `some em` on success with `customer?.email || "" = em`. -/
structure World where
  lookup : String → LookupOutcome
  upsert : ContactPayload → UpsertOutcome
  retrieveCustomer : String → Option String

/-- One attempted outbound call, in order of attempt. -/
inductive Call
  | crmLookup (email : String)
  | crmUpsert (p : ContactPayload)
  | stripeGetCustomer (customerId : String)
  | ckFormSubscribe (formId email firstName : String)
  | ckTagSubscribe (tagId email : String)
deriving DecidableEq, Repr

/-- Whether a call writes to an external system (the CRM upsert and the
ConvertKit subscriptions do; the CRM lookup and the Stripe customer
retrieval are reads). -/
def Call.isWrite : Call → Bool
  | crmUpsert _ => true
  | ckFormSubscribe _ _ _ => true
  | ckTagSubscribe _ _ => true
  | crmLookup _ => false
  | stripeGetCustomer _ => false

/-! ## GHL v1 helpers (webhooks.js) -/

/-- `ghlV1GetContactByEmail(email)`: requires trimmed API key, location id
and a nonempty email, else returns `null` without any call; any fetch
error, non-ok status, or JSON failure is caught and yields `null`. -/
def ghlV1GetContactByEmail (env : Env) (w : World) (email : String) :
    Option Contact × List Call :=
  if jsTrim env.GHL_V1_API_KEY = "" ∨ jsTrim env.GHL_LOCATION_ID = "" ∨ email = "" then
    (none, [])
  else
    match w.lookup email with
    | .throws => (none, [Call.crmLookup email])
    | .httpErr => (none, [Call.crmLookup email])
    | .ok c => (c, [Call.crmLookup email])

/-- Result of `ghlV1UpsertContact`.  `threw` marks the one failure mode the
helper does NOT catch: the upsert `fetch` itself rejecting, which propagates
to the caller. -/
inductive UpsertResult
  | skippedNoEmail
  | skippedNoConfig
  | failedHttp (status : Nat)
  | done (body : String)
  | threw
deriving DecidableEq, Repr

/-- `(existing?.tags || [])`: the tag list obtained by the lookup. -/
def lookedUpTags (env : Env) (w : World) (email : String) : List String :=
  (((ghlV1GetContactByEmail env w email).1).map Contact.tags).getD []

/-- The payload sent by `ghlV1UpsertContact`: the caller's fields, with the
tag list replaced by the merged one. -/
def sentPayload (env : Env) (w : World) (a : ContactPayload) : ContactPayload :=
  { a with tags := mergedTagsFor (lookedUpTags env w a.email) a.tags }

/-- How the upsert fetch's outcome is reported by `ghlV1UpsertContact`. -/
def upsertResultOf : UpsertOutcome → UpsertResult
  | .throws => .threw
  | .httpErr s _ => .failedHttp s
  | .ok body => .done body

/-- `ghlV1UpsertContact({email, firstName, lastName, phone, tags,
customFields})`: skip without email or config; read existing tags by email
(errors treated as no existing tags); send the merged, deduplicated tag
list; a non-ok response is logged and swallowed, but a rejected `fetch`
propagates (`threw`). -/
def ghlV1UpsertContact (env : Env) (w : World) (a : ContactPayload) :
    UpsertResult × List Call :=
  if a.email = "" then (.skippedNoEmail, [])
  else if jsTrim env.GHL_V1_API_KEY = "" ∨ jsTrim env.GHL_LOCATION_ID = "" then
    (.skippedNoConfig, [])
  else
    (upsertResultOf (w.upsert (sentPayload env w a)),
      (ghlV1GetContactByEmail env w a.email).2 ++ [Call.crmUpsert (sentPayload env w a)])

/-- `convertKitSubscribe({email, firstName})`: no-op without an API key;
otherwise a form subscribe when a form id is configured, then one tag
subscribe per comma-separated configured tag id.  Every fetch error is
caught, so only the attempted calls matter. -/
def convertKitSubscribe (env : Env) (email firstName : String) : List Call :=
  if env.CONVERTKIT_API_KEY = "" then []
  else
    (if env.CONVERTKIT_FORM_ID ≠ ""
      then [Call.ckFormSubscribe env.CONVERTKIT_FORM_ID email firstName] else [])
    ++ (((env.CONVERTKIT_TAG_IDS.splitOn ",").map jsTrim).filter (· ≠ "")).map
        (Call.ckTagSubscribe · email)

/-! ## The Stripe events and the webhook handler -/

/-- `checkout.session.completed` payload fields read by the handler. -/
structure CheckoutSession where
  customer_details_email : String := ""
  customer_email : String := ""
  customer_details_name : String := ""
  customer_details_phone : String := ""
  customer : String := ""
  id : String := ""
deriving DecidableEq, Repr

/-- `invoice.payment_succeeded` / `invoice.payment_failed` payload fields. -/
structure Invoice where
  customer_email : String := ""
  id : String := ""
  subscription : String := ""
  customer : String := ""
deriving DecidableEq, Repr

/-- `customer.subscription.*` payload fields. -/
structure Subscription where
  status : String := ""
  customer : String := ""
  id : String := ""
deriving DecidableEq, Repr

/-- The event object of a verified Stripe event (`event.data.object`
dispatched on `event.type`; every unhandled type is `other`). -/
inductive EventObj
  | checkoutSessionCompleted (s : CheckoutSession)
  | invoicePaymentSucceeded (inv : Invoice)
  | invoicePaymentFailed (inv : Invoice)
  | customerSubscriptionDeleted (sub : Subscription)
  | customerSubscriptionUpdated (sub : Subscription)
  | other (type : String)
deriving DecidableEq, Repr

/-- A verified Stripe event: the dispatched object plus `event.created`. -/
structure StripeEvent where
  data : EventObj
  created : Nat
deriving DecidableEq, Repr

/-- The three responses the route can produce: `200 {received:true}`,
`400 Webhook Error …`, `500 Server error`. -/
inductive Resp
  | receivedTrue
  | sigFailure
  | serverError
deriving DecidableEq, Repr

/-- HTTP status of each response. -/
def Resp.status : Resp → Nat
  | receivedTrue => 200
  | sigFailure => 400
  | serverError => 500

/-- The `customer.subscription.deleted` / `.updated` secondary identity
lookup: `if (customerId) try { email = (await
stripe.customers.retrieve(customerId))?.email || "" } catch { … }`. -/
def fetchCustomerEmailViaStripe (w : World) (customerId : String) :
    String × List Call :=
  if customerId = "" then ("", [])
  else
    match w.retrieveCustomer customerId with
    | some em => (em, [Call.stripeGetCustomer customerId])
    | none => ("", [Call.stripeGetCustomer customerId])

/-- The body of the `registerStripeWebhooks` route handler after successful
signature verification: the `switch (event.type)` dispatch.  Returns the
HTTP response together with the ordered trace of attempted outbound calls.
An exception from the un-caught upsert `fetch` (`UpsertResult.threw`) falls
into the handler's top-level `catch`, which answers `500 Server error`. -/
def handleEvent (env : Env) (w : World) (e : StripeEvent) : Resp × List Call :=
  match e.data with
  | .checkoutSessionCompleted s =>
    let email := jsOr s.customer_details_email s.customer_email
    if email = "" then (.receivedTrue, [])
    else
      let fl := splitName s.customer_details_name
      let customFields := [("Last Checkout Session ID", CFVal.str s.id),
        ("Stripe Customer ID", CFVal.str s.customer),
        ("Last Stripe Event Type", CFVal.str "checkout.session.completed"),
        ("Last Stripe Event Time", CFVal.time e.created)]
      let tags := [TAGS.STABLE.TRIAL, TAGS.evt.cs s.id]
      let up := ghlV1UpsertContact env w
        { email := email, firstName := fl.1, lastName := fl.2,
          phone := s.customer_details_phone, tags := tags, customFields := customFields }
      if up.1 = .threw then (.serverError, up.2)
      else (.receivedTrue, up.2 ++ convertKitSubscribe env email fl.1)
  | .invoicePaymentSucceeded inv =>
    if inv.customer_email = "" then (.receivedTrue, [])
    else
      let customFields := [("Last Invoice ID", CFVal.str inv.id),
        ("Last Subscription ID", CFVal.str inv.subscription),
        ("Stripe Customer ID", CFVal.str inv.customer),
        ("Last Stripe Event Type", CFVal.str "invoice.payment_succeeded"),
        ("Last Stripe Event Time", CFVal.time e.created)]
      let tags := [TAGS.STABLE.ACTIVE, TAGS.evt.inv inv.id]
        ++ (if inv.subscription ≠ "" then [TAGS.evt.sub inv.subscription] else [])
      let up := ghlV1UpsertContact env w
        { email := inv.customer_email, tags := tags, customFields := customFields }
      if up.1 = .threw then (.serverError, up.2) else (.receivedTrue, up.2)
  | .invoicePaymentFailed inv =>
    if inv.customer_email = "" then (.receivedTrue, [])
    else
      let customFields := [("Last Invoice ID", CFVal.str inv.id),
        ("Last Subscription ID", CFVal.str inv.subscription),
        ("Stripe Customer ID", CFVal.str inv.customer),
        ("Last Stripe Event Type", CFVal.str "invoice.payment_failed"),
        ("Last Stripe Event Time", CFVal.time e.created)]
      let tags := [TAGS.STABLE.DUNNING, TAGS.evt.inv inv.id]
        ++ (if inv.subscription ≠ "" then [TAGS.evt.sub inv.subscription] else [])
      let up := ghlV1UpsertContact env w
        { email := inv.customer_email, tags := tags, customFields := customFields }
      if up.1 = .threw then (.serverError, up.2) else (.receivedTrue, up.2)
  | .customerSubscriptionDeleted sub =>
    let fe := fetchCustomerEmailViaStripe w sub.customer
    if fe.1 = "" then (.receivedTrue, fe.2)
    else
      let customFields := [("Last Subscription ID", CFVal.str sub.id),
        ("Stripe Customer ID", CFVal.str sub.customer),
        ("Last Stripe Event Type", CFVal.str "customer.subscription.deleted"),
        ("Last Stripe Event Time", CFVal.time e.created)]
      let tags := [TAGS.STABLE.CANCELED, TAGS.evt.sub sub.id]
      let up := ghlV1UpsertContact env w
        { email := fe.1, tags := tags, customFields := customFields }
      if up.1 = .threw then (.serverError, fe.2 ++ up.2)
      else (.receivedTrue, fe.2 ++ up.2)
  | .customerSubscriptionUpdated sub =>
    if sub.status ≠ "active" then (.receivedTrue, [])
    else
      let fe := fetchCustomerEmailViaStripe w sub.customer
      if fe.1 = "" then (.receivedTrue, fe.2)
      else
        let customFields := [("Last Subscription ID", CFVal.str sub.id),
          ("Stripe Customer ID", CFVal.str sub.customer),
          ("Last Stripe Event Type", CFVal.str "customer.subscription.updated"),
          ("Last Stripe Event Time", CFVal.time e.created)]
        let tags := [TAGS.STABLE.ACTIVE, TAGS.STABLE.SUB_ACTIVE, TAGS.evt.sub sub.id]
        let up := ghlV1UpsertContact env w
          { email := fe.1, tags := tags, customFields := customFields }
        if up.1 = .threw then (.serverError, fe.2 ++ up.2)
        else (.receivedTrue, fe.2 ++ up.2)
  | .other _ => (.receivedTrue, [])

/-- The whole route: `stripe.webhooks.constructEvent` either yields a
verified event or throws, in which case the handler answers
`400 Webhook Error: …` before doing anything else. -/
def handleRequest (env : Env) (w : World) (verified : Option StripeEvent) :
    Resp × List Call :=
  match verified with
  | none => (.sigFailure, [])
  | some e => handleEvent env w e

/-! ## A faithful CRM world, for end-to-end state properties

The external CRM is a mapping email → contact.  `worldOfCrm` is the world
in which the lookup returns the current contact for the queried email and
every upsert succeeds; `applyCall` is the effect of one call on the CRM
(an upsert replaces the contact's tags and custom fields with the payload's,
every other call is a read); `stepCrm` is the CRM state after the handler
processed one event. -/

def CrmDb : Type := String → Option Contact

def worldOfCrm (cust : String → Option String) (crm : CrmDb) : World where
  lookup := fun em => .ok (crm em)
  upsert := fun _ => .ok ""
  retrieveCustomer := cust

def applyCall (crm : CrmDb) : Call → CrmDb
  | .crmUpsert p => fun em => if em = p.email then some ⟨p.tags, p.customFields⟩ else crm em
  | .crmLookup _ => crm
  | .stripeGetCustomer _ => crm
  | .ckFormSubscribe _ _ _ => crm
  | .ckTagSubscribe _ _ => crm

def stepCrm (env : Env) (cust : String → Option String) (crm : CrmDb)
    (e : StripeEvent) : CrmDb :=
  ((handleEvent env (worldOfCrm cust crm) e).2).foldl applyCall crm

/-! ## The pipeline-stage-id resolver (server.js)

`resolveV1StageIdByName({pipelineId, stageName})` probes three GHL v1 API
shapes in order — the filtered opportunity list, the unfiltered opportunity
list with client-side filtering, and the pipeline object with embedded
stages — short-circuiting on the first successfully resolved stage id and
caching it in the module-level `_stageIdCache` map under the key
`` `${pipelineId}::${stageName}` ``. -/

/-- JavaScript `s.toLowerCase()` (character-wise lowering). -/
def jsToLower (s : String) : String :=
  String.mk (s.data.map Char.toLower)

/-- `matchName = s => (s || "").toLowerCase() === (stageName || "").toLowerCase()`. -/
def matchName (stageName s : String) : Bool :=
  jsToLower s == jsToLower stageName

/-- An opportunity object as read by the resolver. -/
structure V1Opp where
  pipelineId : String := ""
  stageName : String := ""
  stageId : String := ""
deriving DecidableEq, Repr

/-- A stage object embedded in a pipeline response. -/
structure V1Stage where
  id : String := ""
  name : String := ""
deriving DecidableEq, Repr

/-- Outcome of one probe fetch: it may throw, return a non-ok status, or
succeed with the (already JSON-normalized) list; an unparsable body is the
same as `ok []` in the source. -/
inductive ProbeOutcome (α : Type)
  | throws
  | httpErr
  | ok (v : α)

/-- Deterministic behaviour of the three probed endpoints. -/
structure ProbeWorld where
  filteredOpps : String → ProbeOutcome (List V1Opp)
  allOpps : ProbeOutcome (List V1Opp)
  pipelineObj : String → ProbeOutcome (List V1Stage)

/-- One attempted probe call. -/
inductive PCall
  | filtered (pipelineId : String)
  | unfiltered
  | pipeline (pipelineId : String)
deriving DecidableEq, Repr

/-- The module-level `_stageIdCache` map, as an association list in
insertion order. -/
abbrev StageCache : Type := List (String × String)

/-- `_stageIdCache.get(key)` / `.has(key)`. -/
def cacheGet (c : StageCache) (k : String) : Option String :=
  (List.find? (fun e => e.1 == k) c).map (fun e => e.2)

/-- `_stageIdCache.set(key, v)` (only ever called for a missing key). -/
def cacheSet (c : StageCache) (k v : String) : StageCache :=
  c ++ [(k, v)]

/-- Result of one resolver invocation: the returned id or thrown error
message, the cache afterwards, and the probes attempted. -/
structure ResolveOut where
  result : Except String String
  cache : StageCache
  calls : List PCall

/-- Try 1: the filtered opportunity list.  A match whose `stageId` is falsy
does not resolve (the source falls through to the next probe). -/
def tryFilteredOpps (w : ProbeWorld) (pipelineId stageName : String) : Option String :=
  match w.filteredOpps pipelineId with
  | .ok opps =>
    match opps.find? (fun o => matchName stageName o.stageName) with
    | some hit => if hit.stageId ≠ "" then some hit.stageId else none
    | none => none
  | _ => none

/-- Try 2: the unfiltered opportunity list, filtered client-side, preferring
a match on both pipeline id and stage name. -/
def tryUnfilteredOpps (w : ProbeWorld) (pipelineId stageName : String) : Option String :=
  match w.allOpps with
  | .ok opps =>
    match (opps.find? (fun o => o.pipelineId == pipelineId
        && matchName stageName o.stageName)).orElse
        (fun _ => opps.find? (fun o => matchName stageName o.stageName)) with
    | some hit => if hit.stageId ≠ "" then some hit.stageId else none
    | none => none
  | _ => none

/-- Try 3: the pipeline object, whose response may embed stage definitions. -/
def tryPipelineObj (w : ProbeWorld) (pipelineId stageName : String) : Option String :=
  match w.pipelineObj pipelineId with
  | .ok stages =>
    match stages.find? (fun st => matchName stageName st.name) with
    | some st => if st.id ≠ "" then some st.id else none
    | none => none
  | _ => none

/-- `resolveV1StageIdByName`: cache check first, then the configuration
guard (which throws), then the three probes in order, caching and returning
the first resolved id, and throwing if all three fail. -/
def resolveV1StageIdByName (env : Env) (w : ProbeWorld) (cache : StageCache)
    (pipelineId stageName : String) : ResolveOut :=
  match cacheGet cache (pipelineId ++ "::" ++ stageName) with
  | some v => ⟨.ok v, cache, []⟩
  | none =>
    if jsTrim env.GHL_V1_API_KEY = "" ∨ jsTrim env.GHL_LOCATION_ID = "" then
      ⟨.error "Missing GHL_V1_API_KEY or GHL_LOCATION_ID", cache, []⟩
    else
      match tryFilteredOpps w pipelineId stageName with
      | some sid => ⟨.ok sid, cacheSet cache (pipelineId ++ "::" ++ stageName) sid,
          [.filtered pipelineId]⟩
      | none =>
        match tryUnfilteredOpps w pipelineId stageName with
        | some sid => ⟨.ok sid, cacheSet cache (pipelineId ++ "::" ++ stageName) sid,
            [.filtered pipelineId, .unfiltered]⟩
        | none =>
          match tryPipelineObj w pipelineId stageName with
          | some sid => ⟨.ok sid, cacheSet cache (pipelineId ++ "::" ++ stageName) sid,
              [.filtered pipelineId, .unfiltered, .pipeline pipelineId]⟩
          | none => ⟨.error ("Could not resolve v1 stageId for \"" ++ stageName ++ "\""),
              cache, [.filtered pipelineId, .unfiltered, .pipeline pipelineId]⟩

/-! ## Lemmas about the string primitives -/

theorem dropWhile_dropWhile (p : Char → Bool) (l : List Char) :
    (l.dropWhile p).dropWhile p = l.dropWhile p := by
  induction l with
  | nil => rfl
  | cons a l ih =>
    by_cases h : p a
    · simp [List.dropWhile_cons, h, ih]
    · simp [List.dropWhile_cons, h]

theorem head?_dropWhile (p : Char → Bool) (l : List Char) :
    ∀ a, (l.dropWhile p).head? = some a → p a = false := by
  induction l with
  | nil => intro a h; simp at h
  | cons b l ih =>
    intro a h
    by_cases hb : p b
    · exact ih a (by simpa [List.dropWhile_cons, hb] using h)
    · have hh : (List.dropWhile p (b :: l)).head? = some b := by
        simp [List.dropWhile_cons, hb]
      rw [hh, Option.some_inj] at h
      rw [← h]
      simpa using hb

theorem dropWhile_eq_self_of_head? (p : Char → Bool) (l : List Char)
    (h : ∀ a, l.head? = some a → p a = false) : l.dropWhile p = l := by
  cases l with
  | nil => rfl
  | cons b l =>
    have hb : p b = false := h b rfl
    simp [List.dropWhile_cons, hb]

theorem head?_append_left {α : Type} (l r : List α) (h : l ≠ []) :
    (l ++ r).head? = l.head? := by
  cases l with
  | nil => exact absurd rfl h
  | cons a l => rfl

theorem getLast?_append_right {α : Type} (t r : List α) (h : r ≠ []) :
    (t ++ r).getLast? = r.getLast? := by
  have h1 : (t ++ r).reverse.head? = r.reverse.head? := by
    rw [List.reverse_append]
    exact head?_append_left _ _ (by simpa using h)
  simpa [List.head?_reverse] using h1

theorem dropWhile_isSuffix {α : Type} (p : α → Bool) (l : List α) :
    ∃ t, t ++ l.dropWhile p = l := by
  induction l with
  | nil => exact ⟨[], rfl⟩
  | cons a l ih =>
    by_cases h : p a
    · obtain ⟨t, ht⟩ := ih
      exact ⟨a :: t, by simp [List.dropWhile_cons, h, ht]⟩
    · exact ⟨[], by simp [List.dropWhile_cons, h]⟩

/-- `trim` is idempotent. -/
theorem trimChars_idem (l : List Char) : trimChars (trimChars l) = trimChars l := by
  unfold trimChars
  set p := Char.isWhitespace with hp
  set t1 := l.dropWhile p with ht1
  set r := t1.reverse.dropWhile p with hr
  have hdropr : r.dropWhile p = r := by rw [hr]; exact dropWhile_dropWhile p _
  have hhead : ∀ a, r.reverse.head? = some a → p a = false := by
    intro a ha
    rw [List.head?_reverse] at ha
    by_cases hrnil : r = []
    · rw [hrnil] at ha; simp at ha
    · obtain ⟨t, ht⟩ := dropWhile_isSuffix p t1.reverse
      have hfull : t1.reverse.getLast? = some a := by
        rw [← ht, getLast?_append_right t _ (by rw [← hr] at *; exact hrnil)]
        rw [hr] at ha; exact ha
      have hhd : t1.head? = some a := by
        rwa [List.getLast?_reverse] at hfull
      exact head?_dropWhile p l a (by rw [← ht1] at *; exact hhd)
  rw [dropWhile_eq_self_of_head? p r.reverse hhead, List.reverse_reverse, hdropr]

theorem jsTrim_idem (s : String) : jsTrim (jsTrim s) = jsTrim s := by
  show String.mk (trimChars (String.mk (trimChars s.data)).data) = _
  rw [show (String.mk (trimChars s.data)).data = trimChars s.data from rfl,
    trimChars_idem]
  rfl

theorem dropWhile_eq_nil_of_all (p : Char → Bool) (l : List Char)
    (h : ∀ c ∈ l, p c = true) : l.dropWhile p = [] := by
  induction l with
  | nil => rfl
  | cons a l ih =>
    have ha : p a = true := h a (by simp)
    simp [List.dropWhile_cons, ha, ih fun c hc => h c (by simp [hc])]

/-- A string all of whose characters are whitespace trims to `""`. -/
theorem jsTrim_eq_empty_of_all_ws (s : String)
    (h : ∀ c ∈ s.data, c.isWhitespace = true) : jsTrim s = "" := by
  show String.mk (trimChars s.data) = ""
  unfold trimChars
  rw [dropWhile_eq_nil_of_all _ _ h]
  rfl

theorem mem_jsDedupAux {a : String} :
    ∀ {l seen : List String}, a ∈ jsDedupAux seen l ↔ a ∈ l ∧ a ∉ seen := by
  intro l
  induction l with
  | nil => intro seen; simp [jsDedupAux]
  | cons t ts ih =>
    intro seen
    by_cases hts : t ∈ seen
    · rw [jsDedupAux, if_pos hts, ih]
      constructor
      · rintro ⟨h1, h2⟩; exact ⟨by simp [h1], h2⟩
      · rintro ⟨h1, h2⟩
        rcases List.mem_cons.mp h1 with hat | hmem
        · exact absurd (hat ▸ hts) h2
        · exact ⟨hmem, h2⟩
    · rw [jsDedupAux, if_neg hts]
      by_cases hat : a = t
      · subst hat; simp [hts]
      · simp only [List.mem_cons, hat, false_or, ih, List.mem_cons, not_or]

theorem mem_jsDedup {a : String} {l : List String} : a ∈ jsDedup l ↔ a ∈ l := by
  rw [jsDedup, mem_jsDedupAux]
  simp

theorem nodup_jsDedupAux : ∀ (l seen : List String), (jsDedupAux seen l).Nodup := by
  intro l
  induction l with
  | nil => intro seen; simp [jsDedupAux]
  | cons t ts ih =>
    intro seen
    by_cases hts : t ∈ seen
    · rw [jsDedupAux, if_pos hts]; exact ih seen
    · rw [jsDedupAux, if_neg hts]
      refine List.nodup_cons.mpr ⟨?_, ih (t :: seen)⟩
      intro hmem
      exact (mem_jsDedupAux.mp hmem).2 (by simp)

theorem nodup_jsDedup (l : List String) : (jsDedup l).Nodup :=
  nodup_jsDedupAux l []

theorem jsDedupAux_eq_self : ∀ {l seen : List String}, (∀ a ∈ l, a ∉ seen) →
    l.Nodup → jsDedupAux seen l = l := by
  intro l
  induction l with
  | nil => intro seen _ _; rfl
  | cons t ts ih =>
    intro seen hsub hnd
    have hts : t ∉ seen := hsub t (by simp)
    rw [jsDedupAux, if_neg hts]
    congr 1
    apply ih
    · intro a ha
      rw [List.mem_cons, not_or]
      exact ⟨fun hat => (List.nodup_cons.mp hnd).1 (hat ▸ ha),
        hsub a (by simp [ha])⟩
    · exact (List.nodup_cons.mp hnd).2

theorem jsDedup_eq_self_of_nodup {l : List String} (h : l.Nodup) :
    jsDedup l = l :=
  jsDedupAux_eq_self (by simp) h

theorem jsDedup_idem (l : List String) : jsDedup (jsDedup l) = jsDedup l :=
  jsDedup_eq_self_of_nodup (nodup_jsDedup l)

theorem jsDedupAux_eq_nil : ∀ {l seen : List String}, (∀ a ∈ l, a ∈ seen) →
    jsDedupAux seen l = [] := by
  intro l
  induction l with
  | nil => intro seen _; rfl
  | cons t ts ih =>
    intro seen h
    rw [jsDedupAux, if_pos (h t (by simp))]
    exact ih fun a ha => h a (by simp [ha])

theorem jsDedupAux_append_of_subset :
    ∀ {l : List String} (seen xs : List String),
      (∀ a ∈ xs, a ∈ l ∨ a ∈ seen) →
      jsDedupAux seen (l ++ xs) = jsDedupAux seen l := by
  intro l
  induction l with
  | nil =>
    intro seen xs h
    rw [List.nil_append]
    exact jsDedupAux_eq_nil fun a ha => (h a ha).resolve_left (by simp)
  | cons t ts ih =>
    intro seen xs h
    rw [List.cons_append]
    by_cases hts : t ∈ seen
    · rw [jsDedupAux, if_pos hts, jsDedupAux, if_pos hts]
      apply ih
      intro a ha
      rcases h a ha with hl | hs
      · rcases List.mem_cons.mp hl with hat | hmem
        · exact Or.inr (hat ▸ hts)
        · exact Or.inl hmem
      · exact Or.inr hs
    · rw [jsDedupAux, if_neg hts, jsDedupAux, if_neg hts]
      congr 1
      apply ih
      intro a ha
      rcases h a ha with hl | hs
      · rcases List.mem_cons.mp hl with hat | hmem
        · exact Or.inr (by simp [hat])
        · exact Or.inl hmem
      · exact Or.inr (by simp [hs])

theorem jsDedup_append_of_subset (l : List String) (xs : List String)
    (h : ∀ a ∈ xs, a ∈ l) : jsDedup (l ++ xs) = jsDedup l :=
  jsDedupAux_append_of_subset [] xs fun a ha => Or.inl (h a ha)

theorem normTags_eq_self {l : List String}
    (h : ∀ t ∈ l, jsTrim t = t ∧ t ≠ "") : normTags l = l := by
  induction l with
  | nil => rfl
  | cons a l ih =>
    have ha := h a (by simp)
    have hl : normTags l = l := ih fun t ht => h t (by simp [ht])
    show ((a :: l).map jsTrim).filter (· ≠ "") = a :: l
    rw [List.map_cons, ha.1, List.filter_cons]
    simp only [ha.2, ne_eq, not_false_eq_true, decide_True, if_true]
    exact congrArg (a :: ·) hl

theorem mem_normTags {t : String} {l : List String} (h : t ∈ normTags l) :
    (∃ y ∈ l, jsTrim y = t) ∧ t ≠ "" := by
  unfold normTags at h
  rw [List.mem_filter] at h
  obtain ⟨hm, hne⟩ := h
  rw [List.mem_map] at hm
  obtain ⟨y, hy, hyt⟩ := hm
  exact ⟨⟨y, hy, hyt⟩, by simpa using hne⟩

/-- Every element of a normalized tag list is a fixed point of `jsTrim` and
nonempty. -/
theorem normTags_clean {t : String} {l : List String} (h : t ∈ normTags l) :
    jsTrim t = t ∧ t ≠ "" := by
  obtain ⟨⟨y, _, hyt⟩, hne⟩ := mem_normTags h
  exact ⟨by rw [← hyt, jsTrim_idem], hne⟩

theorem mem_mergedTagsFor {t : String} {ex new : List String} :
    t ∈ mergedTagsFor ex new ↔ t ∈ normTags ex ∨ t ∈ normTags new := by
  unfold mergedTagsFor
  rw [mem_jsDedup, List.mem_append, mem_jsDedup]

/-- Every element of a merged tag list is clean (trimmed and nonempty). -/
theorem mergedTagsFor_clean {t : String} {ex new : List String}
    (h : t ∈ mergedTagsFor ex new) : jsTrim t = t ∧ t ≠ "" := by
  rcases mem_mergedTagsFor.mp h with h | h
  · exact normTags_clean h
  · exact normTags_clean h

theorem nodup_mergedTagsFor (ex new : List String) :
    (mergedTagsFor ex new).Nodup :=
  nodup_jsDedup _

/-- Re-merging the same new tags into an already-merged list is the identity:
the algebraic heart of per-event idempotence. -/
theorem mergedTagsFor_idem (ex new : List String) :
    mergedTagsFor (mergedTagsFor ex new) new = mergedTagsFor ex new := by
  have hclean : ∀ t ∈ mergedTagsFor ex new, jsTrim t = t ∧ t ≠ "" :=
    fun t ht => mergedTagsFor_clean ht
  have h1 : normTags (mergedTagsFor ex new) = mergedTagsFor ex new :=
    normTags_eq_self hclean
  show jsDedup (normTags (mergedTagsFor ex new) ++ jsDedup (normTags new))
      = mergedTagsFor ex new
  rw [h1]
  rw [jsDedup_append_of_subset _ _ ?hsub]
  · exact jsDedup_idem _
  case hsub =>
    intro a ha
    rw [mem_jsDedup] at ha
    exact mem_mergedTagsFor.mpr (Or.inr ha)

theorem toFinset_jsDedup (l : List String) : (jsDedup l).toFinset = l.toFinset := by
  ext a
  simp [List.mem_toFinset, mem_jsDedup]

theorem toFinset_mergedTagsFor (ex new : List String) :
    (mergedTagsFor ex new).toFinset = (normTags ex).toFinset ∪ (normTags new).toFinset := by
  unfold mergedTagsFor
  rw [toFinset_jsDedup, List.toFinset_append, toFinset_jsDedup]

/-! ## Trace characterization of the upsert helper -/

theorem ghlV1GetContactByEmail_calls (env : Env) (w : World) (email : String)
    (he : email ≠ "") (hk : jsTrim env.GHL_V1_API_KEY ≠ "")
    (hl : jsTrim env.GHL_LOCATION_ID ≠ "") :
    (ghlV1GetContactByEmail env w email).2 = [Call.crmLookup email] := by
  unfold ghlV1GetContactByEmail
  rw [if_neg (by simp [hk, hl, he])]
  cases w.lookup email <;> rfl

theorem ghlV1UpsertContact_eq (env : Env) (w : World) (a : ContactPayload)
    (he : a.email ≠ "") (hk : jsTrim env.GHL_V1_API_KEY ≠ "")
    (hl : jsTrim env.GHL_LOCATION_ID ≠ "") :
    ghlV1UpsertContact env w a
      = (upsertResultOf (w.upsert (sentPayload env w a)),
        [Call.crmLookup a.email, Call.crmUpsert (sentPayload env w a)]) := by
  unfold ghlV1UpsertContact
  rw [if_neg he, if_neg (by simp [hk, hl]),
    ghlV1GetContactByEmail_calls env w a.email he hk hl]
  rfl

theorem sentPayload_email (env : Env) (w : World) (a : ContactPayload) :
    (sentPayload env w a).email = a.email := rfl

/-- When the lookup config is valid, the contact read over the faithful CRM
world is exactly the CRM's record for that email. -/
theorem lookedUpTags_worldOfCrm (env : Env) (cust : String → Option String)
    (crm : CrmDb) (email : String) (he : email ≠ "")
    (hk : jsTrim env.GHL_V1_API_KEY ≠ "") (hl : jsTrim env.GHL_LOCATION_ID ≠ "") :
    lookedUpTags env (worldOfCrm cust crm) email
      = ((crm email).map Contact.tags).getD [] := by
  unfold lookedUpTags ghlV1GetContactByEmail
  rw [if_neg (by simp [hk, hl, he])]
  rfl

/-- Over the faithful CRM world the upsert fetch never rejects, so the
helper never reports `threw`. -/
theorem ghlV1UpsertContact_worldOfCrm_ne_threw (env : Env)
    (cust : String → Option String) (crm : CrmDb) (a : ContactPayload) :
    (ghlV1UpsertContact env (worldOfCrm cust crm) a).1 ≠ .threw := by
  unfold ghlV1UpsertContact
  by_cases he : a.email = ""
  · rw [if_pos he]; simp
  · rw [if_neg he]
    by_cases hcfg : jsTrim env.GHL_V1_API_KEY = "" ∨ jsTrim env.GHL_LOCATION_ID = ""
    · rw [if_pos hcfg]; simp
    · rw [if_neg hcfg]
      show upsertResultOf
        ((worldOfCrm cust crm).upsert (sentPayload env (worldOfCrm cust crm) a)) ≠ .threw
      simp [worldOfCrm, upsertResultOf]

/-! ## Folding call traces over the CRM -/

theorem foldl_applyCall_neutral {cs : List Call}
    (h : ∀ c ∈ cs, ∀ d : CrmDb, applyCall d c = d) (d : CrmDb) :
    cs.foldl applyCall d = d := by
  induction cs generalizing d with
  | nil => rfl
  | cons c cs ih =>
    rw [List.foldl_cons, h c (by simp) d]
    exact ih (fun c hc d => h c (by simp [hc]) d) d

theorem convertKitSubscribe_neutral (env : Env) (email firstName : String) :
    ∀ c ∈ convertKitSubscribe env email firstName, ∀ d : CrmDb, applyCall d c = d := by
  intro c hc d
  unfold convertKitSubscribe at hc
  by_cases hkey : env.CONVERTKIT_API_KEY = ""
  · rw [if_pos hkey] at hc; simp at hc
  · rw [if_neg hkey] at hc
    rcases List.mem_append.mp hc with h1 | h2
    · by_cases hform : env.CONVERTKIT_FORM_ID ≠ ""
      · rw [if_pos hform] at h1
        rw [List.mem_singleton.mp h1]
        rfl
      · rw [if_neg hform] at h1; simp at h1
    · obtain ⟨x, _, hx⟩ := List.mem_map.mp h2
      rw [← hx]
      rfl

theorem fetchCustomerEmail_neutral (w : World) (cid : String) :
    ∀ c ∈ (fetchCustomerEmailViaStripe w cid).2, ∀ d : CrmDb, applyCall d c = d := by
  intro c hc d
  unfold fetchCustomerEmailViaStripe at hc
  by_cases h : cid = ""
  · rw [if_pos h] at hc; simp at hc
  · rw [if_neg h] at hc
    cases hw : w.retrieveCustomer cid <;> rw [hw] at hc <;>
      rw [List.mem_singleton.mp hc] <;> rfl

/-! ## Idempotence of one upsert over the faithful CRM -/

theorem upsert_worldOfCrm_idem (env : Env) (cust : String → Option String)
    (crm : CrmDb) (a : ContactPayload) (he : a.email ≠ "") :
    ghlV1UpsertContact env
        (worldOfCrm cust
          ((ghlV1UpsertContact env (worldOfCrm cust crm) a).2.foldl applyCall crm)) a
      = ghlV1UpsertContact env (worldOfCrm cust crm) a
    ∧ ∀ em,
      ((ghlV1UpsertContact env (worldOfCrm cust crm) a).2.foldl applyCall
        ((ghlV1UpsertContact env (worldOfCrm cust crm) a).2.foldl applyCall crm)) em
      = ((ghlV1UpsertContact env (worldOfCrm cust crm) a).2.foldl applyCall crm) em := by
  by_cases hcfg : jsTrim env.GHL_V1_API_KEY = "" ∨ jsTrim env.GHL_LOCATION_ID = ""
  · have hskip : ∀ w : World, ghlV1UpsertContact env w a = (.skippedNoConfig, []) := by
      intro w
      unfold ghlV1UpsertContact
      rw [if_neg he, if_pos hcfg]
    constructor
    · rw [hskip, hskip]
    · intro em
      rw [hskip]
      rfl
  · push_neg at hcfg
    obtain ⟨hk, hl⟩ := hcfg
    have heq0 := ghlV1UpsertContact_eq env (worldOfCrm cust crm) a he hk hl
    have hfold1 : (ghlV1UpsertContact env (worldOfCrm cust crm) a).2.foldl applyCall crm
        = applyCall crm (.crmUpsert (sentPayload env (worldOfCrm cust crm) a)) := by
      rw [heq0]
      rfl
    have hlook1 : (applyCall crm
          (.crmUpsert (sentPayload env (worldOfCrm cust crm) a))) a.email
        = some ⟨(sentPayload env (worldOfCrm cust crm) a).tags,
            (sentPayload env (worldOfCrm cust crm) a).customFields⟩ := by
      show (if a.email = (sentPayload env (worldOfCrm cust crm) a).email
          then some _ else _) = _
      rw [if_pos (sentPayload_email env (worldOfCrm cust crm) a).symm]
    have hp2 : sentPayload env
        (worldOfCrm cust (applyCall crm
          (.crmUpsert (sentPayload env (worldOfCrm cust crm) a)))) a
        = sentPayload env (worldOfCrm cust crm) a := by
      show ({ a with tags := mergedTagsFor (lookedUpTags env
          (worldOfCrm cust (applyCall crm
            (.crmUpsert (sentPayload env (worldOfCrm cust crm) a)))) a.email) a.tags }
          : ContactPayload) = _
      rw [lookedUpTags_worldOfCrm env cust _ a.email he hk hl, hlook1]
      show ({ a with tags :=
          mergedTagsFor (sentPayload env (worldOfCrm cust crm) a).tags a.tags }
          : ContactPayload) = _
      rw [show (sentPayload env (worldOfCrm cust crm) a).tags
          = mergedTagsFor (lookedUpTags env (worldOfCrm cust crm) a.email) a.tags from rfl,
        mergedTagsFor_idem]
      rfl
    constructor
    · rw [hfold1, ghlV1UpsertContact_eq env _ a he hk hl, hp2, heq0]
      rfl
    · intro em
      rw [hfold1, heq0]
      show (applyCall (applyCall (applyCall crm
          (.crmUpsert (sentPayload env (worldOfCrm cust crm) a)))
          (.crmLookup a.email))
          (.crmUpsert (sentPayload env (worldOfCrm cust crm) a))) em = _
      show (if em = (sentPayload env (worldOfCrm cust crm) a).email
          then some _ else applyCall crm
            (.crmUpsert (sentPayload env (worldOfCrm cust crm) a)) em) = _
      by_cases hem : em = (sentPayload env (worldOfCrm cust crm) a).email
      · rw [if_pos hem]
        show _ = applyCall crm (.crmUpsert (sentPayload env (worldOfCrm cust crm) a)) em
        show _ = (if em = (sentPayload env (worldOfCrm cust crm) a).email
            then some _ else crm em)
        rw [if_pos hem]
      · rw [if_neg hem]

/-- One pipeline branch: neutral read calls `pre`, the merge-upsert, then
neutral calls `post` — re-running it on the resulting CRM state reproduces
the same upsert and leaves the state unchanged. -/
theorem pipeline_idem (env : Env) (cust : String → Option String) (crm : CrmDb)
    (pre post : List Call) (a : ContactPayload) (he : a.email ≠ "")
    (hpre : ∀ c ∈ pre, ∀ d : CrmDb, applyCall d c = d)
    (hpost : ∀ c ∈ post, ∀ d : CrmDb, applyCall d c = d) :
    ghlV1UpsertContact env (worldOfCrm cust
        ((pre ++ (ghlV1UpsertContact env (worldOfCrm cust crm) a).2 ++ post).foldl
          applyCall crm)) a
      = ghlV1UpsertContact env (worldOfCrm cust crm) a
    ∧ ∀ em,
      ((pre ++ (ghlV1UpsertContact env (worldOfCrm cust crm) a).2 ++ post).foldl applyCall
        ((pre ++ (ghlV1UpsertContact env (worldOfCrm cust crm) a).2 ++ post).foldl
          applyCall crm)) em
      = ((pre ++ (ghlV1UpsertContact env (worldOfCrm cust crm) a).2 ++ post).foldl
          applyCall crm) em := by
  have hst : ∀ d : CrmDb,
      (pre ++ (ghlV1UpsertContact env (worldOfCrm cust crm) a).2 ++ post).foldl
        applyCall d
      = (ghlV1UpsertContact env (worldOfCrm cust crm) a).2.foldl applyCall d := by
    intro d
    rw [List.foldl_append, List.foldl_append, foldl_applyCall_neutral hpre,
      foldl_applyCall_neutral hpost]
  constructor
  · rw [hst]
    exact (upsert_worldOfCrm_idem env cust crm a he).1
  · intro em
    rw [hst, hst]
    exact (upsert_worldOfCrm_idem env cust crm a he).2 em

/-- A handler branch that only performs neutral (non-upsert) calls is a
no-op on the CRM, so re-delivery is trivially idempotent. -/
theorem skip_step (env : Env) (cust : String → Option String) (crm : CrmDb)
    (eC : StripeEvent) (tr : List Call)
    (hne : ∀ c ∈ tr, ∀ d : CrmDb, applyCall d c = d)
    (hhe : ∀ d : CrmDb, handleEvent env (worldOfCrm cust d) eC = (.receivedTrue, tr)) :
    handleEvent env (worldOfCrm cust (stepCrm env cust crm eC)) eC
        = handleEvent env (worldOfCrm cust crm) eC
    ∧ ∀ em, stepCrm env cust (stepCrm env cust crm eC) eC em
        = stepCrm env cust crm eC em := by
  have hst : ∀ d : CrmDb, stepCrm env cust d eC = d := by
    intro d
    unfold stepCrm
    rw [hhe]
    exact foldl_applyCall_neutral hne d
  constructor
  · rw [hhe, hhe]
  · intro em
    rw [hst, hst]

/-- A handler branch of the shape “neutral reads `pre`, then the merge
upsert for payload `a`, then neutral calls `post`” is idempotent over the
faithful CRM. -/
theorem branch_step (env : Env) (cust : String → Option String) (crm : CrmDb)
    (eC : StripeEvent) (a : ContactPayload) (pre post : List Call)
    (he : a.email ≠ "")
    (hpre : ∀ c ∈ pre, ∀ d : CrmDb, applyCall d c = d)
    (hpost : ∀ c ∈ post, ∀ d : CrmDb, applyCall d c = d)
    (hhe : ∀ d : CrmDb, handleEvent env (worldOfCrm cust d) eC
      = (.receivedTrue, pre ++ (ghlV1UpsertContact env (worldOfCrm cust d) a).2 ++ post)) :
    handleEvent env (worldOfCrm cust (stepCrm env cust crm eC)) eC
        = handleEvent env (worldOfCrm cust crm) eC
    ∧ ∀ em, stepCrm env cust (stepCrm env cust crm eC) eC em
        = stepCrm env cust crm eC em := by
  have hst : stepCrm env cust crm eC
      = (pre ++ (ghlV1UpsertContact env (worldOfCrm cust crm) a).2 ++ post).foldl
          applyCall crm := by
    unfold stepCrm
    rw [hhe]
  constructor
  · rw [hhe, hhe, hst, (pipeline_idem env cust crm pre post a he hpre hpost).1]
  · intro em
    have key : ∀ d : CrmDb,
        d = (pre ++ (ghlV1UpsertContact env (worldOfCrm cust crm) a).2 ++ post).foldl
          applyCall crm →
        stepCrm env cust d eC em = d em := by
      intro d hd
      unfold stepCrm
      rw [hhe d]
      show ((pre ++ (ghlV1UpsertContact env (worldOfCrm cust d) a).2 ++ post).foldl
          applyCall d) em = d em
      subst hd
      rw [(pipeline_idem env cust crm pre post a he hpre hpost).1]
      exact (pipeline_idem env cust crm pre post a he hpre hpost).2 em
    exact key (stepCrm env cust crm eC) hst

theorem fetchCustomerEmail_worldOfCrm_indep (cust : String → Option String)
    (d d2 : CrmDb) (cid : String) :
    fetchCustomerEmailViaStripe (worldOfCrm cust d) cid
      = fetchCustomerEmailViaStripe (worldOfCrm cust d2) cid := rfl

/-- C2: re-delivering any verified event leaves the CRM unchanged relative
to a single delivery: the handler issues the identical call trace (in
particular the same upsert payload, so the audit custom fields are
overwritten with the same values), and the resulting contact database is
pointwise equal. -/
theorem c2_redelivery_idempotent (env : Env) (cust : String → Option String)
    (crm : CrmDb) (e : StripeEvent) :
    handleEvent env (worldOfCrm cust (stepCrm env cust crm e)) e
        = handleEvent env (worldOfCrm cust crm) e
    ∧ ∀ em, stepCrm env cust (stepCrm env cust crm e) e em
        = stepCrm env cust crm e em := by
  obtain ⟨d0, created⟩ := e
  cases d0 with
  | checkoutSessionCompleted s =>
    by_cases hemail : jsOr s.customer_details_email s.customer_email = ""
    · refine skip_step env cust crm _ [] (by intro c hc; simp at hc) ?_
      intro d
      simp only [handleEvent]
      rw [if_pos hemail]
    · refine branch_step env cust crm _
        { email := jsOr s.customer_details_email s.customer_email,
          firstName := (splitName s.customer_details_name).1,
          lastName := (splitName s.customer_details_name).2,
          phone := s.customer_details_phone,
          tags := [TAGS.STABLE.TRIAL, TAGS.evt.cs s.id],
          customFields := [("Last Checkout Session ID", CFVal.str s.id),
            ("Stripe Customer ID", CFVal.str s.customer),
            ("Last Stripe Event Type", CFVal.str "checkout.session.completed"),
            ("Last Stripe Event Time", CFVal.time created)] }
        [] (convertKitSubscribe env (jsOr s.customer_details_email s.customer_email)
            (splitName s.customer_details_name).1)
        hemail (by intro c hc; simp at hc) (convertKitSubscribe_neutral env _ _) ?_
      intro d
      simp only [handleEvent]
      rw [if_neg hemail, if_neg (ghlV1UpsertContact_worldOfCrm_ne_threw env cust d _),
        List.nil_append]
  | invoicePaymentSucceeded inv =>
    by_cases hemail : inv.customer_email = ""
    · refine skip_step env cust crm _ [] (by intro c hc; simp at hc) ?_
      intro d
      simp only [handleEvent]
      rw [if_pos hemail]
    · refine branch_step env cust crm _
        { email := inv.customer_email,
          tags := [TAGS.STABLE.ACTIVE, TAGS.evt.inv inv.id]
            ++ (if inv.subscription ≠ "" then [TAGS.evt.sub inv.subscription] else []),
          customFields := [("Last Invoice ID", CFVal.str inv.id),
            ("Last Subscription ID", CFVal.str inv.subscription),
            ("Stripe Customer ID", CFVal.str inv.customer),
            ("Last Stripe Event Type", CFVal.str "invoice.payment_succeeded"),
            ("Last Stripe Event Time", CFVal.time created)] }
        [] [] hemail (by intro c hc; simp at hc) (by intro c hc; simp at hc) ?_
      intro d
      simp only [handleEvent]
      rw [if_neg hemail, if_neg (ghlV1UpsertContact_worldOfCrm_ne_threw env cust d _),
        List.append_nil, List.nil_append]
  | invoicePaymentFailed inv =>
    by_cases hemail : inv.customer_email = ""
    · refine skip_step env cust crm _ [] (by intro c hc; simp at hc) ?_
      intro d
      simp only [handleEvent]
      rw [if_pos hemail]
    · refine branch_step env cust crm _
        { email := inv.customer_email,
          tags := [TAGS.STABLE.DUNNING, TAGS.evt.inv inv.id]
            ++ (if inv.subscription ≠ "" then [TAGS.evt.sub inv.subscription] else []),
          customFields := [("Last Invoice ID", CFVal.str inv.id),
            ("Last Subscription ID", CFVal.str inv.subscription),
            ("Stripe Customer ID", CFVal.str inv.customer),
            ("Last Stripe Event Type", CFVal.str "invoice.payment_failed"),
            ("Last Stripe Event Time", CFVal.time created)] }
        [] [] hemail (by intro c hc; simp at hc) (by intro c hc; simp at hc) ?_
      intro d
      simp only [handleEvent]
      rw [if_neg hemail, if_neg (ghlV1UpsertContact_worldOfCrm_ne_threw env cust d _),
        List.append_nil, List.nil_append]
  | customerSubscriptionDeleted sub =>
    by_cases hfe : (fetchCustomerEmailViaStripe (worldOfCrm cust crm) sub.customer).1 = ""
    · refine skip_step env cust crm _
        (fetchCustomerEmailViaStripe (worldOfCrm cust crm) sub.customer).2
        (fetchCustomerEmail_neutral _ _) ?_
      intro d
      simp only [handleEvent]
      rw [fetchCustomerEmail_worldOfCrm_indep cust d crm, if_pos hfe]
    · refine branch_step env cust crm _
        { email := (fetchCustomerEmailViaStripe (worldOfCrm cust crm) sub.customer).1,
          tags := [TAGS.STABLE.CANCELED, TAGS.evt.sub sub.id],
          customFields := [("Last Subscription ID", CFVal.str sub.id),
            ("Stripe Customer ID", CFVal.str sub.customer),
            ("Last Stripe Event Type", CFVal.str "customer.subscription.deleted"),
            ("Last Stripe Event Time", CFVal.time created)] }
        (fetchCustomerEmailViaStripe (worldOfCrm cust crm) sub.customer).2 []
        hfe (fetchCustomerEmail_neutral _ _) (by intro c hc; simp at hc) ?_
      intro d
      simp only [handleEvent]
      rw [fetchCustomerEmail_worldOfCrm_indep cust d crm, if_neg hfe,
        if_neg (ghlV1UpsertContact_worldOfCrm_ne_threw env cust d _), List.append_nil]
  | customerSubscriptionUpdated sub =>
    by_cases hstat : sub.status = "active"
    · by_cases hfe : (fetchCustomerEmailViaStripe (worldOfCrm cust crm) sub.customer).1 = ""
      · refine skip_step env cust crm _
          (fetchCustomerEmailViaStripe (worldOfCrm cust crm) sub.customer).2
          (fetchCustomerEmail_neutral _ _) ?_
        intro d
        simp only [handleEvent]
        rw [if_neg (not_not_intro hstat), fetchCustomerEmail_worldOfCrm_indep cust d crm,
          if_pos hfe]
      · refine branch_step env cust crm _
          { email := (fetchCustomerEmailViaStripe (worldOfCrm cust crm) sub.customer).1,
            tags := [TAGS.STABLE.ACTIVE, TAGS.STABLE.SUB_ACTIVE, TAGS.evt.sub sub.id],
            customFields := [("Last Subscription ID", CFVal.str sub.id),
              ("Stripe Customer ID", CFVal.str sub.customer),
              ("Last Stripe Event Type", CFVal.str "customer.subscription.updated"),
              ("Last Stripe Event Time", CFVal.time created)] }
          (fetchCustomerEmailViaStripe (worldOfCrm cust crm) sub.customer).2 []
          hfe (fetchCustomerEmail_neutral _ _) (by intro c hc; simp at hc) ?_
        intro d
        simp only [handleEvent]
        rw [if_neg (not_not_intro hstat), fetchCustomerEmail_worldOfCrm_indep cust d crm,
          if_neg hfe, if_neg (ghlV1UpsertContact_worldOfCrm_ne_threw env cust d _),
          List.append_nil]
    · refine skip_step env cust crm _ [] (by intro c hc; simp at hc) ?_
      intro d
      simp only [handleEvent]
      rw [if_pos hstat]
  | other ty =>
    exact skip_step env cust crm _ [] (by intro c hc; simp at hc) (fun d => rfl)

/-! ## Further helper lemmas for the claims -/

/-- Newly requested clean tags always survive into the sent tag list. -/
theorem mem_sentPayload_tags_of_new {t : String} (env : Env) (w : World)
    (a : ContactPayload) (ht : jsTrim t = t) (hne : t ≠ "") (hmem : t ∈ a.tags) :
    t ∈ (sentPayload env w a).tags := by
  show t ∈ mergedTagsFor (lookedUpTags env w a.email) a.tags
  apply mem_mergedTagsFor.mpr
  right
  unfold normTags
  rw [List.mem_filter]
  refine ⟨List.mem_map.mpr ⟨t, hmem, ht⟩, by simpa using hne⟩

theorem lookedUpTags_of_ok_some (env : Env) (w : World) (email : String)
    (c : Contact) (he : email ≠ "") (hk : jsTrim env.GHL_V1_API_KEY ≠ "")
    (hl : jsTrim env.GHL_LOCATION_ID ≠ "") (hw : w.lookup email = .ok (some c)) :
    lookedUpTags env w email = c.tags := by
  unfold lookedUpTags ghlV1GetContactByEmail
  rw [if_neg (by simp [hk, hl, he]), hw]
  rfl

theorem lookedUpTags_of_failure (env : Env) (w : World) (email : String)
    (hfail : w.lookup email = .throws ∨ w.lookup email = .httpErr
      ∨ w.lookup email = .ok none) :
    lookedUpTags env w email = [] := by
  unfold lookedUpTags ghlV1GetContactByEmail
  by_cases hg : jsTrim env.GHL_V1_API_KEY = "" ∨ jsTrim env.GHL_LOCATION_ID = ""
      ∨ email = ""
  · rw [if_pos hg]
    rfl
  · rw [if_neg hg]
    rcases hfail with h | h | h <;> rw [h] <;> rfl

/-- `mergedTagsFor` over an empty existing set is the identity on an
already-clean, duplicate-free new tag list. -/
theorem mergedTagsFor_nil_of_clean {l : List String}
    (hclean : ∀ t ∈ l, jsTrim t = t ∧ t ≠ "") (hnd : l.Nodup) :
    mergedTagsFor [] l = l := by
  show jsDedup (normTags [] ++ jsDedup (normTags l)) = l
  rw [normTags_eq_self hclean]
  show jsDedup (jsDedup l) = l
  rw [jsDedup_idem, jsDedup_eq_self_of_nodup hnd]

theorem fetchCustomerEmail_calls_not_write (w : World) (cid : String) :
    ∀ c ∈ (fetchCustomerEmailViaStripe w cid).2, c.isWrite = false := by
  intro c hc
  unfold fetchCustomerEmailViaStripe at hc
  by_cases h : cid = ""
  · rw [if_pos h] at hc; simp at hc
  · rw [if_neg h] at hc
    cases hw : w.retrieveCustomer cid <;> rw [hw] at hc <;>
      rw [List.mem_singleton.mp hc] <;> rfl

theorem fetchCustomerEmail_calls_of_found (w : World) (cid : String)
    (h : (fetchCustomerEmailViaStripe w cid).1 ≠ "") :
    (fetchCustomerEmailViaStripe w cid).2 = [Call.stripeGetCustomer cid] := by
  unfold fetchCustomerEmailViaStripe at h ⊢
  by_cases hc : cid = ""
  · rw [if_pos hc] at h; exact absurd rfl h
  · rw [if_neg hc] at h ⊢
    cases hw : w.retrieveCustomer cid <;> rfl

theorem upsertResultOf_ne_threw {o : UpsertOutcome} (h : o ≠ .throws) :
    upsertResultOf o ≠ .threw := by
  cases o with
  | throws => exact absurd rfl h
  | httpErr s b => intro hx; exact UpsertResult.noConfusion hx
  | ok b => intro hx; exact UpsertResult.noConfusion hx

/-! ## The claims -/

/-- C1: for every upsert with a resolvable email and valid configuration,
when the lookup-by-email returns an existing contact, the tag set sent to
the CRM equals the union of the contact's existing tag set and the newly
computed tags (order-independent set equality over already-normalized
tags), and in particular is a superset of the pre-existing tag set. -/
theorem c1_sent_tags_eq_union (env : Env) (w : World) (a : ContactPayload)
    (c : Contact) (he : a.email ≠ "") (hk : jsTrim env.GHL_V1_API_KEY ≠ "")
    (hl : jsTrim env.GHL_LOCATION_ID ≠ "")
    (hw : w.lookup a.email = .ok (some c))
    (hex : ∀ t ∈ c.tags, jsTrim t = t ∧ t ≠ "")
    (hnew : ∀ t ∈ a.tags, jsTrim t = t ∧ t ≠ "") :
    ∃ p : ContactPayload, Call.crmUpsert p ∈ (ghlV1UpsertContact env w a).2
      ∧ p.tags.toFinset = c.tags.toFinset ∪ a.tags.toFinset
      ∧ c.tags.toFinset ⊆ p.tags.toFinset := by
  have hset : (sentPayload env w a).tags.toFinset
      = c.tags.toFinset ∪ a.tags.toFinset := by
    show (mergedTagsFor (lookedUpTags env w a.email) a.tags).toFinset = _
    rw [lookedUpTags_of_ok_some env w a.email c he hk hl hw,
      toFinset_mergedTagsFor, normTags_eq_self hex, normTags_eq_self hnew]
  refine ⟨sentPayload env w a, ?_, hset, ?_⟩
  · rw [ghlV1UpsertContact_eq env w a he hk hl]
    simp
  · rw [hset]
    exact Finset.subset_union_left

/-- C1 witness: with existing tags `{A, B}` and new tags `{B, C}` the
written tag set is `{A, B, C}`, a superset of `{A, B}`. -/
theorem c1_witness :
    ("e@x.com" ≠ "" ∧ jsTrim "k" ≠ "" ∧ jsTrim "loc" ≠ ""
      ∧ (∀ t ∈ ["A", "B"], jsTrim t = t ∧ t ≠ "")
      ∧ (∀ t ∈ ["B", "C"], jsTrim t = t ∧ t ≠ ""))
    ∧ (∃ p : ContactPayload,
        Call.crmUpsert p ∈ (ghlV1UpsertContact ⟨"k", "loc", "", "", ""⟩
          ⟨fun _ => .ok (some ⟨["A", "B"], []⟩), fun _ => .ok "", fun _ => none⟩
          { email := "e@x.com", tags := ["B", "C"] }).2
        ∧ p.tags.toFinset = (["A", "B"] : List String).toFinset
            ∪ (["B", "C"] : List String).toFinset
        ∧ (["A", "B"] : List String).toFinset ⊆ p.tags.toFinset)
    ∧ (mergedTagsFor ["A", "B"] ["B", "C"]).toFinset
        = ({"A", "B", "C"} : Finset String) :=
  ⟨⟨by decide, by decide, by decide, by decide, by decide⟩,
    c1_sent_tags_eq_union ⟨"k", "loc", "", "", ""⟩
      ⟨fun _ => .ok (some ⟨["A", "B"], []⟩), fun _ => .ok "", fun _ => none⟩
      { email := "e@x.com", tags := ["B", "C"] } ⟨["A", "B"], []⟩
      (by decide) (by decide) (by decide) rfl (by decide) (by decide),
    by decide⟩

/-- C7: a `customer.subscription.updated` event is acted on only when the
embedded status is exactly `"active"`: any other status produces zero
external calls; with status `"active"`, a resolvable email and valid
configuration, the handler performs the secondary Stripe customer lookup,
the CRM lookup, and an upsert whose tag list carries both
`fc:payment_succeeded` and `fc:sub_active`. -/
theorem c7_sub_updated_gating (env : Env) (w : World) (created : Nat) :
    (∀ sub : Subscription, sub.status ≠ "active" →
      handleEvent env w ⟨.customerSubscriptionUpdated sub, created⟩
        = (.receivedTrue, []))
    ∧ (∀ sub : Subscription, sub.status = "active" →
      (fetchCustomerEmailViaStripe w sub.customer).1 ≠ "" →
      jsTrim env.GHL_V1_API_KEY ≠ "" → jsTrim env.GHL_LOCATION_ID ≠ "" →
      ∃ p : ContactPayload,
        (handleEvent env w ⟨.customerSubscriptionUpdated sub, created⟩).2
          = [Call.stripeGetCustomer sub.customer,
            Call.crmLookup (fetchCustomerEmailViaStripe w sub.customer).1,
            Call.crmUpsert p]
        ∧ TAGS.STABLE.ACTIVE ∈ p.tags ∧ TAGS.STABLE.SUB_ACTIVE ∈ p.tags) := by
  constructor
  · intro sub hstat
    simp only [handleEvent]
    rw [if_pos hstat]
  · intro sub hstat hfe hk hl
    refine ⟨sentPayload env w
      { email := (fetchCustomerEmailViaStripe w sub.customer).1,
        tags := [TAGS.STABLE.ACTIVE, TAGS.STABLE.SUB_ACTIVE, TAGS.evt.sub sub.id],
        customFields := [("Last Subscription ID", CFVal.str sub.id),
          ("Stripe Customer ID", CFVal.str sub.customer),
          ("Last Stripe Event Type", CFVal.str "customer.subscription.updated"),
          ("Last Stripe Event Time", CFVal.time created)] }, ?_, ?_, ?_⟩
    · simp only [handleEvent]
      rw [if_neg (not_not_intro hstat), if_neg hfe,
        ghlV1UpsertContact_eq env w _ hfe hk hl,
        fetchCustomerEmail_calls_of_found w sub.customer hfe]
      split <;> rfl
    · exact mem_sentPayload_tags_of_new env w _ (by decide) (by decide) (by simp)
    · exact mem_sentPayload_tags_of_new env w _ (by decide) (by decide) (by simp)

/-- C7 witness: a `past_due` update performs zero calls; an `active` update
with a resolvable email issues the Stripe read, the CRM lookup and an
upsert carrying both stable tags. -/
theorem c7_witness :
    (("past_due" : String) ≠ "active"
      ∧ handleEvent ⟨"k", "loc", "", "", ""⟩
          ⟨fun _ => .ok none, fun _ => .ok "", fun _ => some "a@x.com"⟩
          ⟨.customerSubscriptionUpdated { status := "past_due" }, 0⟩
        = (.receivedTrue, []))
    ∧ (("active" : String) = "active"
      ∧ (fetchCustomerEmailViaStripe
          ⟨fun _ => .ok none, fun _ => .ok "", fun _ => some "a@x.com"⟩ "cus_1").1 ≠ ""
      ∧ jsTrim "k" ≠ "" ∧ jsTrim "loc" ≠ ""
      ∧ ∃ p : ContactPayload,
        (handleEvent ⟨"k", "loc", "", "", ""⟩
            ⟨fun _ => .ok none, fun _ => .ok "", fun _ => some "a@x.com"⟩
            ⟨.customerSubscriptionUpdated
              { status := "active", customer := "cus_1", id := "sub_1" }, 0⟩).2
          = [Call.stripeGetCustomer "cus_1",
            Call.crmLookup (fetchCustomerEmailViaStripe
              ⟨fun _ => .ok none, fun _ => .ok "", fun _ => some "a@x.com"⟩ "cus_1").1,
            Call.crmUpsert p]
        ∧ TAGS.STABLE.ACTIVE ∈ p.tags ∧ TAGS.STABLE.SUB_ACTIVE ∈ p.tags) :=
  ⟨⟨by decide,
    (c7_sub_updated_gating ⟨"k", "loc", "", "", ""⟩
      ⟨fun _ => .ok none, fun _ => .ok "", fun _ => some "a@x.com"⟩ 0).1
      { status := "past_due" } (by decide)⟩,
    ⟨rfl, by decide, by decide, by decide,
    (c7_sub_updated_gating ⟨"k", "loc", "", "", ""⟩
      ⟨fun _ => .ok none, fun _ => .ok "", fun _ => some "a@x.com"⟩ 0).2
      { status := "active", customer := "cus_1", id := "sub_1" }
      rfl (by decide) (by decide) (by decide)⟩⟩

/-- C8: a `checkout.session.completed` event with customer-details email
`a@x.com`, name `Jane Doe` and session id `cs_1` invokes the upsert with a
tag list containing `fc:trial_checkout` and `evt:cs_cs_1`, firstName
`Jane` and lastName `Doe`. -/
theorem c8_checkout_scenario (env : Env) (w : World) (s : CheckoutSession)
    (created : Nat)
    (hk : jsTrim env.GHL_V1_API_KEY ≠ "") (hl : jsTrim env.GHL_LOCATION_ID ≠ "")
    (he : s.customer_details_email = "a@x.com")
    (hn : s.customer_details_name = "Jane Doe")
    (hid : s.id = "cs_1") :
    ∃ p : ContactPayload,
      Call.crmUpsert p ∈ (handleEvent env w ⟨.checkoutSessionCompleted s, created⟩).2
      ∧ p.firstName = "Jane" ∧ p.lastName = "Doe"
      ∧ "fc:trial_checkout" ∈ p.tags ∧ "evt:cs_cs_1" ∈ p.tags := by
  have hemail : jsOr s.customer_details_email s.customer_email = "a@x.com" := by
    rw [he]
    show (if ("a@x.com" : String) = "" then s.customer_email else "a@x.com") = _
    rw [if_neg (by decide)]
  have hemne : jsOr s.customer_details_email s.customer_email ≠ "" := by
    rw [hemail]; decide
  refine ⟨sentPayload env w
    { email := jsOr s.customer_details_email s.customer_email,
      firstName := (splitName s.customer_details_name).1,
      lastName := (splitName s.customer_details_name).2,
      phone := s.customer_details_phone,
      tags := [TAGS.STABLE.TRIAL, TAGS.evt.cs s.id],
      customFields := [("Last Checkout Session ID", CFVal.str s.id),
        ("Stripe Customer ID", CFVal.str s.customer),
        ("Last Stripe Event Type", CFVal.str "checkout.session.completed"),
        ("Last Stripe Event Time", CFVal.time created)] }, ?_, ?_, ?_, ?_, ?_⟩
  · simp only [handleEvent]
    rw [if_neg hemne, ghlV1UpsertContact_eq env w _ hemne hk hl]
    split
    · simp
    · apply List.mem_append_left
      simp
  · show (splitName s.customer_details_name).1 = "Jane"
    rw [hn]
    decide
  · show (splitName s.customer_details_name).2 = "Doe"
    rw [hn]
    decide
  · exact mem_sentPayload_tags_of_new env w _ (by decide) (by decide)
      (by simp [TAGS.STABLE.TRIAL])
  · apply mem_sentPayload_tags_of_new env w _ (by decide) (by decide)
    show ("evt:cs_cs_1" : String) ∈ [TAGS.STABLE.TRIAL, TAGS.evt.cs s.id]
    rw [hid]
    decide

/-- C8 witness: the scenario at a fully concrete session. -/
theorem c8_witness :
    (jsTrim "k" ≠ "" ∧ jsTrim "loc" ≠ ""
      ∧ ({ customer_details_email := "a@x.com", customer_details_name := "Jane Doe", id := "cs_1" } : CheckoutSession).customer_details_email = "a@x.com"
      ∧ ({ customer_details_email := "a@x.com", customer_details_name := "Jane Doe", id := "cs_1" } : CheckoutSession).customer_details_name = "Jane Doe"
      ∧ ({ customer_details_email := "a@x.com", customer_details_name := "Jane Doe", id := "cs_1" } : CheckoutSession).id = "cs_1")
    ∧ ∃ p : ContactPayload,
      Call.crmUpsert p ∈ (handleEvent ⟨"k", "loc", "", "", ""⟩
          ⟨fun _ => .ok none, fun _ => .ok "", fun _ => none⟩
          ⟨.checkoutSessionCompleted
            { customer_details_email := "a@x.com", customer_details_name := "Jane Doe", id := "cs_1" }, 0⟩).2
      ∧ p.firstName = "Jane" ∧ p.lastName = "Doe"
      ∧ "fc:trial_checkout" ∈ p.tags ∧ "evt:cs_cs_1" ∈ p.tags :=
  ⟨⟨by decide, by decide, rfl, rfl, rfl⟩,
    c8_checkout_scenario ⟨"k", "loc", "", "", ""⟩
      ⟨fun _ => .ok none, fun _ => .ok "", fun _ => none⟩
      { customer_details_email := "a@x.com", customer_details_name := "Jane Doe", id := "cs_1" } 0 (by decide) (by decide) rfl rfl rfl⟩

/-- C10: every tag list actually sent to the CRM by the merge-capable
upsert is duplicate-free and contains no empty and no whitespace-only
entries, for arbitrary (even dirty) incoming and existing tag lists. -/
theorem c10_sent_tags_normalized (env : Env) (w : World) (a : ContactPayload)
    (p : ContactPayload) (hp : Call.crmUpsert p ∈ (ghlV1UpsertContact env w a).2) :
    p.tags.Nodup ∧ ∀ t ∈ p.tags, t ≠ ""
      ∧ ¬ ∀ ch ∈ t.data, ch.isWhitespace = true := by
  have hps : p = sentPayload env w a := by
    unfold ghlV1UpsertContact at hp
    by_cases he : a.email = ""
    · rw [if_pos he] at hp; simp at hp
    · rw [if_neg he] at hp
      by_cases hcfg : jsTrim env.GHL_V1_API_KEY = "" ∨ jsTrim env.GHL_LOCATION_ID = ""
      · rw [if_pos hcfg] at hp; simp at hp
      · rw [if_neg hcfg] at hp
        rcases List.mem_append.mp hp with h1 | h2
        · exfalso
          unfold ghlV1GetContactByEmail at h1
          by_cases hg : jsTrim env.GHL_V1_API_KEY = "" ∨ jsTrim env.GHL_LOCATION_ID = ""
              ∨ a.email = ""
          · rw [if_pos hg] at h1; simp at h1
          · rw [if_neg hg] at h1
            cases hwl : w.lookup a.email <;> rw [hwl] at h1 <;> simp at h1
        · exact Call.crmUpsert.inj (List.mem_singleton.mp h2)
  subst hps
  constructor
  · exact nodup_mergedTagsFor _ _
  · intro t ht
    have hclean : jsTrim t = t ∧ t ≠ "" :=
      mergedTagsFor_clean (ht : t ∈ mergedTagsFor (lookedUpTags env w a.email) a.tags)
    refine ⟨hclean.2, ?_⟩
    intro hws
    exact hclean.2 (by rw [← hclean.1]; exact jsTrim_eq_empty_of_all_ws t hws)

/-- C3: a request that fails Stripe signature verification (the
`constructEvent` call throws, modelled by `none`) is answered with the 400
client-error response and the handler attempts zero external calls of any
kind. -/
theorem c3_bad_signature_no_calls (env : Env) (w : World) :
    handleRequest env w none = (.sigFailure, [])
    ∧ Resp.status .sigFailure = 400 :=
  ⟨rfl, rfl⟩

/-- C4: whenever identity resolution yields no email — absent on a checkout
session or invoice payload, or not recoverable via the Stripe customer
lookup for subscription events — the handler performs zero external write
calls (at most the read-only Stripe customer retrieval happens) and still
responds 200 `{received:true}`. -/
theorem c4_no_email_dropped (env : Env) (w : World) (created : Nat) :
    (∀ s : CheckoutSession, jsOr s.customer_details_email s.customer_email = "" →
      handleEvent env w ⟨.checkoutSessionCompleted s, created⟩ = (.receivedTrue, []))
    ∧ (∀ inv : Invoice, inv.customer_email = "" →
      handleEvent env w ⟨.invoicePaymentSucceeded inv, created⟩ = (.receivedTrue, []))
    ∧ (∀ inv : Invoice, inv.customer_email = "" →
      handleEvent env w ⟨.invoicePaymentFailed inv, created⟩ = (.receivedTrue, []))
    ∧ (∀ sub : Subscription, (fetchCustomerEmailViaStripe w sub.customer).1 = "" →
      handleEvent env w ⟨.customerSubscriptionDeleted sub, created⟩
        = (.receivedTrue, (fetchCustomerEmailViaStripe w sub.customer).2)
      ∧ ∀ c ∈ (fetchCustomerEmailViaStripe w sub.customer).2, c.isWrite = false)
    ∧ (∀ sub : Subscription, sub.status = "active" →
      (fetchCustomerEmailViaStripe w sub.customer).1 = "" →
      handleEvent env w ⟨.customerSubscriptionUpdated sub, created⟩
        = (.receivedTrue, (fetchCustomerEmailViaStripe w sub.customer).2)
      ∧ ∀ c ∈ (fetchCustomerEmailViaStripe w sub.customer).2, c.isWrite = false) := by
  refine ⟨?_, ?_, ?_, ?_, ?_⟩
  · intro s h
    simp only [handleEvent]
    rw [if_pos h]
  · intro inv h
    simp only [handleEvent]
    rw [if_pos h]
  · intro inv h
    simp only [handleEvent]
    rw [if_pos h]
  · intro sub h
    refine ⟨?_, fetchCustomerEmail_calls_not_write w sub.customer⟩
    simp only [handleEvent]
    rw [if_pos h]
  · intro sub hstat h
    refine ⟨?_, fetchCustomerEmail_calls_not_write w sub.customer⟩
    simp only [handleEvent]
    rw [if_neg (not_not_intro hstat), if_pos h]

/-- C4 witness: a checkout session with no email at all is dropped with a
200 and an empty call trace, and a subscription deletion whose customer
lookup finds no email performs only the read-only customer retrieval. -/
theorem c4_witness :
    (jsOr "" "" = ""
      ∧ handleEvent ⟨"k", "loc", "", "", ""⟩
          ⟨fun _ => .ok none, fun _ => .ok "", fun _ => none⟩
          ⟨.checkoutSessionCompleted {}, 0⟩ = (.receivedTrue, []))
    ∧ ((fetchCustomerEmailViaStripe
          ⟨fun _ => .ok none, fun _ => .ok "", fun _ => none⟩ "cus_1").1 = ""
      ∧ handleEvent ⟨"k", "loc", "", "", ""⟩
          ⟨fun _ => .ok none, fun _ => .ok "", fun _ => none⟩
          ⟨.customerSubscriptionDeleted { customer := "cus_1" }, 0⟩
        = (.receivedTrue, (fetchCustomerEmailViaStripe
            ⟨fun _ => .ok none, fun _ => .ok "", fun _ => none⟩ "cus_1").2)
      ∧ ∀ c ∈ (fetchCustomerEmailViaStripe
          ⟨fun _ => .ok none, fun _ => .ok "", fun _ => none⟩ "cus_1").2,
          c.isWrite = false) :=
  ⟨⟨by decide,
    (c4_no_email_dropped ⟨"k", "loc", "", "", ""⟩
      ⟨fun _ => .ok none, fun _ => .ok "", fun _ => none⟩ 0).1 {} (by decide)⟩,
    ⟨by decide,
      (c4_no_email_dropped ⟨"k", "loc", "", "", ""⟩
        ⟨fun _ => .ok none, fun _ => .ok "", fun _ => none⟩ 0).2.2.2.1
        { customer := "cus_1" } (by decide)⟩⟩

/-- C5 counterexample: when the upsert `fetch` itself rejects (a
network-level error from the outbound CRM call), the error is NOT swallowed
by the helper: it propagates to the handler's top-level catch and the
handler responds 500, not 200 `{received:true}`. -/
theorem c5_counterexample :
    (handleEvent ⟨"k", "loc", "", "", ""⟩
        ⟨fun _ => .ok none, fun _ => .throws, fun _ => none⟩
        ⟨.invoicePaymentSucceeded { customer_email := "a@x.com", id := "in_1" }, 0⟩).1
      = .serverError
    ∧ (handleEvent ⟨"k", "loc", "", "", ""⟩
        ⟨fun _ => .ok none, fun _ => .throws, fun _ => none⟩
        ⟨.invoicePaymentSucceeded { customer_email := "a@x.com", id := "in_1" }, 0⟩).1
      ≠ .receivedTrue
    ∧ Resp.status .serverError = 500 := by
  refine ⟨by decide, by decide, rfl⟩

theorem ghlV1UpsertContact_fst_ne_threw (env : Env) (w : World) (a : ContactPayload)
    (hnothrow : ∀ p : ContactPayload, w.upsert p ≠ .throws) :
    (ghlV1UpsertContact env w a).1 ≠ .threw := by
  unfold ghlV1UpsertContact
  by_cases he : a.email = ""
  · rw [if_pos he]; simp
  · rw [if_neg he]
    by_cases hcfg : jsTrim env.GHL_V1_API_KEY = "" ∨ jsTrim env.GHL_LOCATION_ID = ""
    · rw [if_pos hcfg]; simp
    · rw [if_neg hcfg]
      exact upsertResultOf_ne_threw (hnothrow _)

/-- C5 (amended): every CRM upsert failure surfaced as a non-ok HTTP
response (or any other non-throwing outcome) is swallowed inside the upsert
helper and the handler responds 200 `{received:true}` for every event; only
a rejected upsert `fetch` (a thrown network-level error) escapes to the
top-level catch, which then responds 500 (see the counterexample). -/
theorem c5_amended_errors_swallowed (env : Env) (w : World)
    (hnothrow : ∀ p : ContactPayload, w.upsert p ≠ .throws) (e : StripeEvent) :
    (handleEvent env w e).1 = .receivedTrue := by
  obtain ⟨d0, created⟩ := e
  cases d0 with
  | checkoutSessionCompleted s =>
    by_cases hemail : jsOr s.customer_details_email s.customer_email = ""
    · simp only [handleEvent]
      rw [if_pos hemail]
    · simp only [handleEvent]
      rw [if_neg hemail,
        if_neg (ghlV1UpsertContact_fst_ne_threw env w _ hnothrow)]
  | invoicePaymentSucceeded inv =>
    by_cases hemail : inv.customer_email = ""
    · simp only [handleEvent]
      rw [if_pos hemail]
    · simp only [handleEvent]
      rw [if_neg hemail,
        if_neg (ghlV1UpsertContact_fst_ne_threw env w _ hnothrow)]
  | invoicePaymentFailed inv =>
    by_cases hemail : inv.customer_email = ""
    · simp only [handleEvent]
      rw [if_pos hemail]
    · simp only [handleEvent]
      rw [if_neg hemail,
        if_neg (ghlV1UpsertContact_fst_ne_threw env w _ hnothrow)]
  | customerSubscriptionDeleted sub =>
    by_cases hfe : (fetchCustomerEmailViaStripe w sub.customer).1 = ""
    · simp only [handleEvent]
      rw [if_pos hfe]
    · simp only [handleEvent]
      rw [if_neg hfe,
        if_neg (ghlV1UpsertContact_fst_ne_threw env w _ hnothrow)]
  | customerSubscriptionUpdated sub =>
    by_cases hstat : sub.status = "active"
    · by_cases hfe : (fetchCustomerEmailViaStripe w sub.customer).1 = ""
      · simp only [handleEvent]
        rw [if_neg (not_not_intro hstat), if_pos hfe]
      · simp only [handleEvent]
        rw [if_neg (not_not_intro hstat), if_neg hfe,
          if_neg (ghlV1UpsertContact_fst_ne_threw env w _ hnothrow)]
    · simp only [handleEvent]
      rw [if_pos hstat]
  | other ty => rfl

/-- C5 witness: an upsert failing with HTTP 500 is swallowed and the
handler still answers 200 `{received:true}`. -/
theorem c5_witness :
    (∀ p : ContactPayload,
      (⟨fun _ => .ok none, fun _ => .httpErr 500 "boom", fun _ => none⟩
        : World).upsert p ≠ .throws)
    ∧ (handleEvent ⟨"k", "loc", "", "", ""⟩
        ⟨fun _ => .ok none, fun _ => .httpErr 500 "boom", fun _ => none⟩
        ⟨.invoicePaymentSucceeded { customer_email := "a@x.com", id := "in_1" }, 0⟩).1
      = .receivedTrue :=
  ⟨fun _ h => UpsertOutcome.noConfusion h,
    c5_amended_errors_swallowed ⟨"k", "loc", "", "", ""⟩
      ⟨fun _ => .ok none, fun _ => .httpErr 500 "boom", fun _ => none⟩
      (fun _ h => UpsertOutcome.noConfusion h)
      ⟨.invoicePaymentSucceeded { customer_email := "a@x.com", id := "in_1" }, 0⟩⟩

/-- C6: when the lookup-by-email throws, fails with a non-ok HTTP status,
or finds no contact, the upsert is still attempted and carries exactly the
newly computed (clean, duplicate-free) tags — the lookup failure is treated
as an empty existing tag set and never aborts the upsert. -/
theorem c6_lookup_failure_failsoft (env : Env) (w : World) (a : ContactPayload)
    (he : a.email ≠ "") (hk : jsTrim env.GHL_V1_API_KEY ≠ "")
    (hl : jsTrim env.GHL_LOCATION_ID ≠ "")
    (hfail : w.lookup a.email = .throws ∨ w.lookup a.email = .httpErr
      ∨ w.lookup a.email = .ok none)
    (hclean : ∀ t ∈ a.tags, jsTrim t = t ∧ t ≠ "") (hnd : a.tags.Nodup) :
    ghlV1UpsertContact env w a
      = (upsertResultOf (w.upsert a), [Call.crmLookup a.email, Call.crmUpsert a]) := by
  have hsp : sentPayload env w a = a := by
    unfold sentPayload
    rw [lookedUpTags_of_failure env w a.email hfail,
      mergedTagsFor_nil_of_clean hclean hnd]
  rw [ghlV1UpsertContact_eq env w a he hk hl, hsp]

/-- C6 witness: with a throwing lookup, the upsert is attempted with
exactly the new tags `["B", "C"]`. -/
theorem c6_witness :
    ("a@x.com" ≠ "" ∧ jsTrim "k" ≠ "" ∧ jsTrim "loc" ≠ ""
      ∧ (∀ t ∈ ["B", "C"], jsTrim t = t ∧ t ≠ "")
      ∧ (["B", "C"] : List String).Nodup)
    ∧ ghlV1UpsertContact ⟨"k", "loc", "", "", ""⟩
        ⟨fun _ => .throws, fun _ => .ok "", fun _ => none⟩
        { email := "a@x.com", tags := ["B", "C"] }
      = (upsertResultOf ((⟨fun _ => .throws, fun _ => .ok "", fun _ => none⟩
            : World).upsert { email := "a@x.com", tags := ["B", "C"] }),
        [Call.crmLookup "a@x.com",
          Call.crmUpsert { email := "a@x.com", tags := ["B", "C"] }]) :=
  ⟨⟨by decide, by decide, by decide, by decide, by decide⟩,
    c6_lookup_failure_failsoft ⟨"k", "loc", "", "", ""⟩
      ⟨fun _ => .throws, fun _ => .ok "", fun _ => none⟩
      { email := "a@x.com", tags := ["B", "C"] }
      (by decide) (by decide) (by decide) (Or.inl rfl) (by decide) (by decide)⟩

/-- C10 witness: a dirty input list `[" A", "A", "", "  "]` is sent as the
clean list `["A"]`. -/
theorem c10_witness :
    Call.crmUpsert { email := "e@x.com", tags := ["A"] }
        ∈ (ghlV1UpsertContact ⟨"k", "loc", "", "", ""⟩
          ⟨fun _ => .ok none, fun _ => .ok "", fun _ => none⟩
          { email := "e@x.com", tags := [" A", "A", "", "  "] }).2
    ∧ (({ email := "e@x.com", tags := ["A"] } : ContactPayload).tags.Nodup
      ∧ ∀ t ∈ ({ email := "e@x.com", tags := ["A"] } : ContactPayload).tags,
        t ≠ "" ∧ ¬ ∀ ch ∈ t.data, ch.isWhitespace = true) :=
  ⟨by decide,
    c10_sent_tags_normalized ⟨"k", "loc", "", "", ""⟩
      ⟨fun _ => .ok none, fun _ => .ok "", fun _ => none⟩
      { email := "e@x.com", tags := [" A", "A", "", "  "] }
      { email := "e@x.com", tags := ["A"] } (by decide)⟩

theorem cacheGet_cacheSet_same (c : StageCache) (k v : String)
    (h : cacheGet c k = none) : cacheGet (cacheSet c k v) k = some v := by
  unfold cacheGet at h ⊢
  unfold cacheSet
  have hf : List.find? (fun e => e.1 == k) c = none := by
    cases hx : List.find? (fun e => e.1 == k) c with
    | none => rfl
    | some e => rw [hx] at h; simp at h
  rw [List.find?_append, hf]
  simp

/-- C9: on a cache miss with valid configuration the resolver probes the
three API shapes strictly in order — filtered opportunity list, unfiltered
opportunity list, pipeline object — returning the first successfully
resolved stage id without attempting any later probe, caching it under the
`pipelineId::stageName` key, throwing only when all three probes fail (and
then caching nothing); and any later call with the same pair, against any
probe world, returns the cached id with zero network calls. -/
theorem c9_stage_resolver (env : Env) (w : ProbeWorld) (cache : StageCache)
    (pipelineId stageName : String)
    (hmiss : cacheGet cache (pipelineId ++ "::" ++ stageName) = none)
    (hk : jsTrim env.GHL_V1_API_KEY ≠ "") (hl : jsTrim env.GHL_LOCATION_ID ≠ "") :
    (∀ sid, tryFilteredOpps w pipelineId stageName = some sid →
      resolveV1StageIdByName env w cache pipelineId stageName
        = ⟨.ok sid, cacheSet cache (pipelineId ++ "::" ++ stageName) sid,
            [.filtered pipelineId]⟩)
    ∧ (tryFilteredOpps w pipelineId stageName = none →
      ∀ sid, tryUnfilteredOpps w pipelineId stageName = some sid →
      resolveV1StageIdByName env w cache pipelineId stageName
        = ⟨.ok sid, cacheSet cache (pipelineId ++ "::" ++ stageName) sid,
            [.filtered pipelineId, .unfiltered]⟩)
    ∧ (tryFilteredOpps w pipelineId stageName = none →
      tryUnfilteredOpps w pipelineId stageName = none →
      ∀ sid, tryPipelineObj w pipelineId stageName = some sid →
      resolveV1StageIdByName env w cache pipelineId stageName
        = ⟨.ok sid, cacheSet cache (pipelineId ++ "::" ++ stageName) sid,
            [.filtered pipelineId, .unfiltered, .pipeline pipelineId]⟩)
    ∧ (tryFilteredOpps w pipelineId stageName = none →
      tryUnfilteredOpps w pipelineId stageName = none →
      tryPipelineObj w pipelineId stageName = none →
      resolveV1StageIdByName env w cache pipelineId stageName
        = ⟨.error ("Could not resolve v1 stageId for \"" ++ stageName ++ "\""),
            cache, [.filtered pipelineId, .unfiltered, .pipeline pipelineId]⟩)
    ∧ (∀ sid, (resolveV1StageIdByName env w cache pipelineId stageName).result = .ok sid →
      ∀ w2 : ProbeWorld,
        resolveV1StageIdByName env w2
            (resolveV1StageIdByName env w cache pipelineId stageName).cache
            pipelineId stageName
          = ⟨.ok sid, (resolveV1StageIdByName env w cache pipelineId stageName).cache, []⟩) := by
  have hcached : ∀ (c2 : StageCache) (w2 : ProbeWorld) (sid : String),
      cacheGet c2 (pipelineId ++ "::" ++ stageName) = some sid →
      resolveV1StageIdByName env w2 c2 pipelineId stageName = ⟨.ok sid, c2, []⟩ := by
    intro c2 w2 sid hc
    unfold resolveV1StageIdByName
    rw [hc]
  refine ⟨?_, ?_, ?_, ?_, ?_⟩
  · intro sid h1
    unfold resolveV1StageIdByName
    rw [hmiss, if_neg (by simp [hk, hl]), h1]
  · intro h1 sid h2
    unfold resolveV1StageIdByName
    rw [hmiss, if_neg (by simp [hk, hl]), h1, h2]
  · intro h1 h2 sid h3
    unfold resolveV1StageIdByName
    rw [hmiss, if_neg (by simp [hk, hl]), h1, h2, h3]
  · intro h1 h2 h3
    unfold resolveV1StageIdByName
    rw [hmiss, if_neg (by simp [hk, hl]), h1, h2, h3]
  · intro sid hok w2
    have hres : resolveV1StageIdByName env w cache pipelineId stageName
        = ⟨.ok sid, cacheSet cache (pipelineId ++ "::" ++ stageName) sid,
            (resolveV1StageIdByName env w cache pipelineId stageName).calls⟩ := by
      unfold resolveV1StageIdByName at hok ⊢
      rw [hmiss, if_neg (by simp [hk, hl])] at hok ⊢
      cases h1 : tryFilteredOpps w pipelineId stageName with
      | some s1 =>
        rw [h1] at hok
        have hs : Except.ok s1 = Except.ok sid := hok
        cases hs
        rfl
      | none =>
        rw [h1] at hok
        cases h2 : tryUnfilteredOpps w pipelineId stageName with
        | some s2 =>
          rw [h2] at hok
          have hs : Except.ok s2 = Except.ok sid := hok
          cases hs
          rfl
        | none =>
          rw [h2] at hok
          cases h3 : tryPipelineObj w pipelineId stageName with
          | some s3 =>
            rw [h3] at hok
            have hs : Except.ok s3 = Except.ok sid := hok
            cases hs
            rfl
          | none =>
            rw [h3] at hok
            exact nomatch hok
    rw [hres]
    exact hcached _ w2 sid (cacheGet_cacheSet_same cache _ sid hmiss)

/-- C9 witness: a fresh resolution through the first probe, followed by a
second call with the same pair that is served from the cache with zero
probe calls even against a world whose probes all throw. -/
theorem c9_witness :
    (cacheGet [] ("p1" ++ "::" ++ "Trial") = none
      ∧ jsTrim "k" ≠ "" ∧ jsTrim "loc" ≠ ""
      ∧ tryFilteredOpps
          ⟨fun _ => .ok [{ pipelineId := "p1", stageName := "trial", stageId := "st1" }],
            .throws, fun _ => .throws⟩ "p1" "Trial" = some "st1")
    ∧ resolveV1StageIdByName ⟨"k", "loc", "", "", ""⟩
        ⟨fun _ => .ok [{ pipelineId := "p1", stageName := "trial", stageId := "st1" }],
          .throws, fun _ => .throws⟩ [] "p1" "Trial"
      = ⟨.ok "st1", cacheSet [] ("p1" ++ "::" ++ "Trial") "st1", [.filtered "p1"]⟩
    ∧ resolveV1StageIdByName ⟨"k", "loc", "", "", ""⟩
        ⟨fun _ => .throws, .throws, fun _ => .throws⟩
        (resolveV1StageIdByName ⟨"k", "loc", "", "", ""⟩
          ⟨fun _ => .ok [{ pipelineId := "p1", stageName := "trial", stageId := "st1" }],
            .throws, fun _ => .throws⟩ [] "p1" "Trial").cache "p1" "Trial"
      = ⟨.ok "st1", (resolveV1StageIdByName ⟨"k", "loc", "", "", ""⟩
          ⟨fun _ => .ok [{ pipelineId := "p1", stageName := "trial", stageId := "st1" }],
            .throws, fun _ => .throws⟩ [] "p1" "Trial").cache, []⟩ :=
  ⟨⟨rfl, by decide, by decide, by decide⟩,
    (c9_stage_resolver ⟨"k", "loc", "", "", ""⟩
      ⟨fun _ => .ok [{ pipelineId := "p1", stageName := "trial", stageId := "st1" }],
        .throws, fun _ => .throws⟩ [] "p1" "Trial" rfl (by decide) (by decide)).1
      "st1" (by decide),
    (c9_stage_resolver ⟨"k", "loc", "", "", ""⟩
      ⟨fun _ => .ok [{ pipelineId := "p1", stageName := "trial", stageId := "st1" }],
        .throws, fun _ => .throws⟩ [] "p1" "Trial" rfl (by decide) (by decide)).2.2.2.2
      "st1" rfl ⟨fun _ => .throws, .throws, fun _ => .throws⟩⟩

end FlavorCoach
